import Mathlib

/-!
Verification of the DOCSIS channel health analyzer (`app/analyzer.py`).

The analyzer is a pure function from (threshold configuration, raw modem
payload) to a structured analysis result.  We embed it shallowly:

* Python scalar values appearing in channel dicts are modelled by `PyVal`
  (`None`, `int`, `float`, `str`); Python floats are modelled by `ℚ`
  (the analyzer only compares, adds, divides and rounds small decimal
  readings, where IEEE doubles and rationals agree on every claim here).
* A channel dict is an association list `Chan`; `dict.get` is `pyGet`.
* Operations that can raise in Python (attribute access on a non-dict
  threshold entry, summing a non-numeric error count, sorting
  incomparable keys) are modelled in `Except String`.
* The analyzer reads a module-level threshold table loaded from
  `thresholds.json`; the table is passed here as an explicit `Thresholds`
  argument.  `thresholds.json` itself is not part of the sources, so the
  shipped table is modelled from the spec below (`defaultThresholds`);
  `emptyThresholds` models the hardcoded-fallback situation in which the
  file is absent or malformed.
* Python `list.sort(key=...)` is a stable sort; it raises `TypeError`
  when it compares two keys of incomparable kinds, which for mixed-kind
  key lists always happens.  We model it as: check that all keys are
  pairwise comparable (all numeric, or all strings, or fewer than two
  keys), then apply a stable insertion sort.  A stable sort by a total
  preorder has a unique result, so this agrees with Timsort.
-/

/-- Python scalar value as it appears in a channel reading or record. -/
inductive PyVal where
  | vNone : PyVal
  | vInt : Int → PyVal
  | vFloat : ℚ → PyVal
  | vStr : String → PyVal
deriving DecidableEq, Repr

/-- A Python dict with string keys, as an association list (first match wins). -/
abbrev Chan := List (String × PyVal)

/-- Python `ch.get(k)`: the value under `k`, or `None` when absent. -/
def pyGet (ch : Chan) (k : String) : PyVal :=
  (List.lookup k ch).getD .vNone

/-- Python `ch.get(k, d)` for an explicit default `d`. -/
def pyGetD (ch : Chan) (k : String) (d : PyVal) : PyVal :=
  (List.lookup k ch).getD d

/-- Python truthiness of a scalar: `None`, `0`, `0.0` and `""` are falsy. -/
def pyTruthy : PyVal → Bool
  | .vNone => false
  | .vInt n => n ≠ 0
  | .vFloat q => q ≠ 0
  | .vStr s => s ≠ ""

/-- Numeric view of a value: `int` and `float` are numbers, all else is not. -/
def numQ : PyVal → Option ℚ
  | .vInt n => some (n : ℚ)
  | .vFloat q => some q
  | _ => none

/-- Value of a digit string, most significant first. -/
def natOfDigits (cs : List Char) : Nat :=
  cs.foldl (fun a c => a * 10 + (c.toNat - 48)) 0

/-- Python `float(s)` on a plain decimal literal: optional sign, digits,
optional single decimal point, at least one digit.  (Python additionally
accepts exponents, `inf`/`nan`, underscores and surrounding whitespace;
the drivers feeding the analyzer, and every claim below, only use plain
decimal literals, so those forms are out of scope of this model.) -/
def parsePyFloat (s : String) : Option ℚ :=
  let signed : ℚ × List Char :=
    match s.data with
    | '-' :: rest => (-1, rest)
    | '+' :: rest => (1, rest)
    | cs => (1, cs)
  let sign := signed.1
  let body := signed.2
  let ip := body.takeWhile Char.isDigit
  let rest := body.dropWhile Char.isDigit
  match rest with
  | [] => if ip.isEmpty then none else some (sign * (natOfDigits ip : ℚ))
  | '.' :: frac =>
    if frac.all Char.isDigit && !(ip.isEmpty && frac.isEmpty) then
      some (sign * ((natOfDigits ip : ℚ) + (natOfDigits frac : ℚ) / ((10 : ℚ) ^ frac.length)))
    else none
  | _ => none

/-- Python `float(v)` for a scalar: numbers convert, strings parse,
`None` and unparsable strings fail. -/
def pyFloatOf : PyVal → Option ℚ
  | .vInt n => some (n : ℚ)
  | .vFloat q => some q
  | .vStr s => parsePyFloat s
  | .vNone => none

/-- `_parse_float(val)` at its call sites (which all use the default
`default=0.0`): `float(val)`, with `TypeError`/`ValueError` caught and
turned into `0.0`. -/
def _parse_float (v : PyVal) : ℚ :=
  (pyFloatOf v).getD 0

/-- Boolean prefix test on character lists. -/
def charsPrefix : List Char → List Char → Bool
  | [], _ => true
  | _ :: _, [] => false
  | c :: p, d :: l => c = d && charsPrefix p l

/-- Boolean infix test on character lists: the pattern occurs as a
contiguous run somewhere (the empty pattern always occurs). -/
def charsInfix : List Char → List Char → Bool
  | p, [] => p.isEmpty
  | p, d :: ls => charsPrefix p (d :: ls) || charsInfix p ls

/-- Python substring test: `pat in s`. -/
def strContains (s pat : String) : Bool :=
  charsInfix pat.data s.data

/-- `_channel_health(issues)`: `"good"` on no issues, `"critical"` when any
issue string contains `"critical"`, else `"warning"`. -/
def _channel_health (issues : List String) : String :=
  if issues.isEmpty then "good"
  else if issues.any (fun i => strContains i "critical") then "critical"
  else "warning"

/-- `_health_detail(issues)`: the issues joined with `" + "` (empty string
when there are none). -/
def _health_detail (issues : List String) : String :=
  String.intercalate " + " issues

/-! ## Threshold table and resolvers -/

/-- One record of bounds under a modulation / DOCSIS-version key of
`thresholds.json`; each field is independently optional. -/
structure BandRec where
  good_min : Option ℚ
  good_max : Option ℚ
  immediate_min : Option ℚ
  immediate_max : Option ℚ
deriving DecidableEq, Repr

/-- A value of a category sub-mapping: either a string (as under the
reserved `_default` key, which names the fallback sub-key) or a record
of bounds. -/
inductive TVal where
  | str : String → TVal
  | band : BandRec → TVal
deriving DecidableEq, Repr

/-- A category sub-mapping of the threshold table (keys to values). -/
abbrev Category := List (String × TVal)

/-- The loaded threshold table (`_thresholds`).  An absent category is the
empty mapping; the `errors` category holds one scalar. -/
structure Thresholds where
  downstream_power : Category
  upstream_power : Category
  snr : Category
  errors_uncorrectable : Option ℚ
deriving DecidableEq, Repr

/-- A record of bounds with no fields, `{}` in Python. -/
def emptyBand : BandRec :=
  { good_min := none, good_max := none, immediate_min := none, immediate_max := none }

/-- A fully resolved power threshold record. -/
structure PowerThresholds where
  good_min : ℚ
  good_max : ℚ
  crit_min : ℚ
  crit_max : ℚ
deriving DecidableEq, Repr

/-- A fully resolved SNR threshold record (no upper bounds). -/
structure SnrThresholds where
  good_min : ℚ
  crit_min : ℚ
deriving DecidableEq, Repr

/-- `_get_ds_power_thresholds(modulation)`.  `modulation in ds` membership
picks the channel key, else the `_default` value (itself defaulting to
`"256QAM"`); the chosen entry must be a record (`t.get` on the string
stored under `_default` raises `AttributeError`; a non-string `_default`
used as a dict key raises `TypeError`); each bound independently falls
back to its hardcoded constant. -/
def _get_ds_power_thresholds (th : Thresholds) (modulation : Option String) :
    Except String PowerThresholds :=
  let ds := th.downstream_power
  let default_mod : TVal := (List.lookup "_default" ds).getD (.str "256QAM")
  let mod : TVal :=
    match modulation with
    | some m => if (List.lookup m ds).isSome then .str m else default_mod
    | none => default_mod
  match mod with
  | .band _ => .error "TypeError: unhashable key"
  | .str m =>
    match (List.lookup m ds).getD (.band emptyBand) with
    | .str _ => .error "AttributeError: str has no attribute get"
    | .band t =>
      .ok { good_min := t.good_min.getD (-4), good_max := t.good_max.getD 13,
            crit_min := t.immediate_min.getD (-8), crit_max := t.immediate_max.getD 20 }

/-- `_get_us_power_thresholds(docsis_version)`: version strings are
normalized to the canonical keys, unrecognized versions use the
`_default` value; `t = us.get(ver, us.get(default_ver, {}))` with the
inner lookup evaluated first. -/
def _get_us_power_thresholds (th : Thresholds) (docsis_version : Option String) :
    Except String PowerThresholds :=
  let us := th.upstream_power
  let default_ver : TVal := (List.lookup "_default" us).getD (.str "EuroDOCSIS 3.0")
  let ver : TVal :=
    if docsis_version = some "3.1" ∨ docsis_version = some "DOCSIS 3.1" then
      .str "DOCSIS 3.1"
    else if docsis_version = some "3.0" ∨ docsis_version = some "EuroDOCSIS 3.0" then
      .str "EuroDOCSIS 3.0"
    else default_ver
  match default_ver with
  | .band _ => .error "TypeError: unhashable key"
  | .str d =>
    let innerT : TVal := (List.lookup d us).getD (.band emptyBand)
    match ver with
    | .band _ => .error "TypeError: unhashable key"
    | .str v =>
      match (List.lookup v us).getD innerT with
      | .str _ => .error "AttributeError: str has no attribute get"
      | .band t =>
        .ok { good_min := t.good_min.getD 41, good_max := t.good_max.getD 47,
              crit_min := t.immediate_min.getD 35, crit_max := t.immediate_max.getD 53 }

/-- `_get_snr_thresholds(modulation)`: same shape as the downstream power
resolver, with constants 33.0 / 29.0. -/
def _get_snr_thresholds (th : Thresholds) (modulation : Option String) :
    Except String SnrThresholds :=
  let snr := th.snr
  let default_mod : TVal := (List.lookup "_default" snr).getD (.str "256QAM")
  let mod : TVal :=
    match modulation with
    | some m => if (List.lookup m snr).isSome then .str m else default_mod
    | none => default_mod
  match mod with
  | .band _ => .error "TypeError: unhashable key"
  | .str m =>
    match (List.lookup m snr).getD (.band emptyBand) with
    | .str _ => .error "AttributeError: str has no attribute get"
    | .band t =>
      .ok { good_min := t.good_min.getD 33, crit_min := t.immediate_min.getD 29 }

/-- `_get_uncorr_threshold()`: the `errors.uncorrectable_threshold` scalar,
defaulting to 10000. -/
def _get_uncorr_threshold (th : Thresholds) : ℚ :=
  th.errors_uncorrectable.getD 10000

/-! ## Channel classification -/

/-- Uppercasing of a Python string (`str.upper`), on characters. -/
def strUpper (s : String) : String :=
  ⟨s.data.map Char.toUpper⟩

/-- Python `s.replace("-", "")`: remove every hyphen. -/
def stripDashes (s : String) : String :=
  ⟨s.data.filter (fun c => c ≠ '-')⟩

/-- The value of `ch.get("modulation") or ch.get("type") or ""`:
the first truthy of the two fields, else `""`. -/
def modOrTypeRaw (ch : Chan) : PyVal :=
  let m := pyGet ch "modulation"
  if pyTruthy m then m
  else
    let t := pyGet ch "type"
    if pyTruthy t then t else .vStr ""

/-- `(...).upper().replace("-", "")` applied to `modOrTypeRaw`; `.upper()`
on a non-string raises `AttributeError`. -/
def normalizeMod (v : PyVal) : Except String String :=
  match v with
  | .vStr s => .ok (stripDashes (strUpper s))
  | _ => .error "AttributeError: upper"

/-- The power branch of channel assessment: `critical` strictly outside the
critical band, else `warning` strictly outside the good band, else no
issue (an if/elif chain, so never both). -/
def powerIssues (pt : PowerThresholds) (power : ℚ) : List String :=
  if power < pt.crit_min ∨ power > pt.crit_max then ["power critical"]
  else if power < pt.good_min ∨ power > pt.good_max then ["power warning"]
  else []

/-- The SNR branch of channel assessment: `critical` strictly below
`crit_min`, else `warning` strictly below `good_min` (if/elif). -/
def snrIssues (st : SnrThresholds) (snr_val : ℚ) : List String :=
  if snr_val < st.crit_min then ["snr critical"]
  else if snr_val < st.good_min then ["snr warning"]
  else []

/-- The SNR proxy of a downstream channel: `abs(mse)` for a 3.0 channel
with truthy `mse`, `mer` for a 3.1 channel with truthy `mer`, else
`None` (skipping SNR classification). -/
def dsSnrVal (ch : Chan) (docsis_ver : String) : Option ℚ :=
  if docsis_ver = "3.0" ∧ pyTruthy (pyGet ch "mse") then
    some |_parse_float (pyGet ch "mse")|
  else if docsis_ver = "3.1" ∧ pyTruthy (pyGet ch "mer") then
    some (_parse_float (pyGet ch "mer"))
  else none

/-- `_assess_ds_channel(ch, docsis_ver)`: power issues from the
modulation-resolved downstream thresholds, then SNR issues when a proxy
is present; returns `(health, health_detail)`. -/
def _assess_ds_channel (th : Thresholds) (ch : Chan) (docsis_ver : String) :
    Except String (String × String) := do
  let power := _parse_float (pyGet ch "powerLevel")
  let modulation ← normalizeMod (modOrTypeRaw ch)
  let pt ← _get_ds_power_thresholds th (some modulation)
  let pIss := powerIssues pt power
  let issues ←
    match dsSnrVal ch docsis_ver with
    | none => pure pIss
    | some sv => do
      let st ← _get_snr_thresholds th (some modulation)
      pure (pIss ++ snrIssues st sv)
  pure (_channel_health issues, _health_detail issues)

/-- `_assess_us_channel(ch, docsis_ver)`: power-only assessment against the
version-resolved upstream thresholds. -/
def _assess_us_channel (th : Thresholds) (ch : Chan) (docsis_ver : String) :
    Except String (String × String) := do
  let power := _parse_float (pyGet ch "powerLevel")
  let pt ← _get_us_power_thresholds th (some docsis_ver)
  let issues := powerIssues pt power
  pure (_channel_health issues, _health_detail issues)

/-! ## Record assembly, sorting and aggregation -/

/-- A flat downstream channel record as assembled by `analyze`.
`channel_id`, `frequency`, `modulation` and the two error counts are
carried through unparsed, exactly as the code does. -/
structure DsRec where
  channel_id : PyVal
  frequency : PyVal
  power : ℚ
  modulation : PyVal
  snr : Option ℚ
  correctable_errors : PyVal
  uncorrectable_errors : PyVal
  docsis_version : String
  health : String
  health_detail : String
deriving DecidableEq, Repr

/-- A flat upstream channel record as assembled by `analyze`. -/
structure UsRec where
  channel_id : PyVal
  frequency : PyVal
  power : ℚ
  modulation : PyVal
  multiplex : PyVal
  docsis_version : String
  health : String
  health_detail : String
deriving DecidableEq, Repr

/-- The value of `ch.get("modulation") or ch.get("type", "")` used for the
record field (note: unlike the assessment chain, the `type` fallback
keeps a falsy `type` value). -/
def modulationField (ch : Chan) : PyVal :=
  let m := pyGet ch "modulation"
  if pyTruthy m then m else pyGetD ch "type" (.vStr "")

/-- The body of the downstream DOCSIS 3.0 loop of `analyze`. -/
def buildDs30 (th : Thresholds) (ch : Chan) : Except String DsRec := do
  let power := _parse_float (pyGet ch "powerLevel")
  let snr := if pyTruthy (pyGet ch "mse") then some |_parse_float (pyGet ch "mse")| else none
  let hd ← _assess_ds_channel th ch "3.0"
  pure { channel_id := pyGetD ch "channelID" (.vInt 0),
         frequency := pyGetD ch "frequency" (.vStr ""),
         power := power,
         modulation := modulationField ch,
         snr := snr,
         correctable_errors := pyGetD ch "corrErrors" (.vInt 0),
         uncorrectable_errors := pyGetD ch "nonCorrErrors" (.vInt 0),
         docsis_version := "3.0",
         health := hd.1,
         health_detail := hd.2 }

/-- The body of the downstream DOCSIS 3.1 loop of `analyze` (MER used
directly, no absolute value). -/
def buildDs31 (th : Thresholds) (ch : Chan) : Except String DsRec := do
  let power := _parse_float (pyGet ch "powerLevel")
  let snr := if pyTruthy (pyGet ch "mer") then some (_parse_float (pyGet ch "mer")) else none
  let hd ← _assess_ds_channel th ch "3.1"
  pure { channel_id := pyGetD ch "channelID" (.vInt 0),
         frequency := pyGetD ch "frequency" (.vStr ""),
         power := power,
         modulation := modulationField ch,
         snr := snr,
         correctable_errors := pyGetD ch "corrErrors" (.vInt 0),
         uncorrectable_errors := pyGetD ch "nonCorrErrors" (.vInt 0),
         docsis_version := "3.1",
         health := hd.1,
         health_detail := hd.2 }

/-- The body of the two upstream loops of `analyze` (they differ only in
the version literal). -/
def buildUs (th : Thresholds) (ver : String) (ch : Chan) : Except String UsRec := do
  let hd ← _assess_us_channel th ch ver
  pure { channel_id := pyGetD ch "channelID" (.vInt 0),
         frequency := pyGetD ch "frequency" (.vStr ""),
         power := _parse_float (pyGet ch "powerLevel"),
         modulation := modulationField ch,
         multiplex := pyGetD ch "multiplex" (.vStr ""),
         docsis_version := ver,
         health := hd.1,
         health_detail := hd.2 }

/-- A Python `for` loop building a list, aborting at the first raised
exception. -/
def mapE (f : α → Except String β) : List α → Except String (List β)
  | [] => .ok []
  | a :: as => do
    let b ← f a
    let bs ← mapE f as
    pure (b :: bs)

/-- Kind rank used to totalize the sort-key order (the sort only runs when
all keys share a kind, so the cross-kind cases never influence it). -/
def pyRank : PyVal → Nat
  | .vNone => 0
  | .vInt _ => 1
  | .vFloat _ => 1
  | .vStr _ => 2

/-- Total preorder on sort keys: numbers by value, strings
lexicographically, mixed kinds by rank.  On pairwise-comparable key
lists this agrees with the Python `<` used by `list.sort`. -/
def keyLe (a b : PyVal) : Bool :=
  match a, b with
  | .vStr s, .vStr t => decide (s ≤ t)
  | a, b =>
    match numQ a, numQ b with
    | some x, some y => decide (x ≤ y)
    | _, _ => decide (pyRank a ≤ pyRank b)

/-- Two sort keys are Python-comparable when both are numeric or both are
strings (comparing anything else, `None` included, raises `TypeError`). -/
def keyComparable (a b : PyVal) : Bool :=
  ((numQ a).isSome && (numQ b).isSome) ||
    (match a, b with
     | .vStr _, .vStr _ => true
     | _, _ => false)

/-- All pairs of keys drawn from the list are comparable. -/
def allComparable : List PyVal → Bool
  | [] => true
  | k :: ks => ks.all (fun k2 => keyComparable k k2) && allComparable ks

/-- Stable insertion of `a` into `l`: `a` goes before the first element it
is `le`-below-or-tied-with, hence before later elements with equal keys. -/
def insertLe (le : α → α → Bool) (a : α) : List α → List α
  | [] => [a]
  | b :: bs => if le a b then a :: b :: bs else b :: insertLe le a bs

/-- Stable insertion sort. -/
def insSort (le : α → α → Bool) : List α → List α
  | [] => []
  | a :: as => insertLe le a (insSort le as)

/-- `lst.sort(key=...)`: raises `TypeError` when the key list mixes
incomparable kinds, otherwise sorts stably by the key. -/
def sortByKey (key : α → PyVal) (rs : List α) : Except String (List α) :=
  if allComparable (rs.map key) then
    .ok (insSort (fun a b => keyLe (key a) (key b)) rs)
  else .error "TypeError: unorderable types"

/-- One step of Python `sum`: adding a non-number to the accumulator
raises `TypeError`. -/
def pyAdd (acc : ℚ) (v : PyVal) : Except String ℚ :=
  match numQ v with
  | some q => .ok (acc + q)
  | none => .error "TypeError: unsupported operand"

/-- Python `sum` from an accumulator. -/
def pySumFrom (acc : ℚ) : List PyVal → Except String ℚ
  | [] => .ok acc
  | v :: vs => do pySumFrom (← pyAdd acc v) vs

/-- Python `sum(values)` (starting from the int `0`). -/
def pySum (l : List PyVal) : Except String ℚ :=
  pySumFrom 0 l

/-- Round-half-to-even to an integer (the rounding of Python `round`). -/
def roundHalfEven (x : ℚ) : Int :=
  let f := ⌊x⌋
  if x - f < 1/2 then f
  else if x - f > 1/2 then f + 1
  else if f % 2 = 0 then f else f + 1

/-- Python `round(x, 1)` as exact decimal rounding (the binary
representation error of IEEE doubles is not modelled; no claim below
depends on a rounding tie). -/
def round1 (x : ℚ) : ℚ :=
  (roundHalfEven (10 * x) : ℚ) / 10

/-- Python `min` over a nonempty list (0 is never used: callers guard). -/
def listMin : List ℚ → ℚ
  | [] => 0
  | x :: xs => xs.foldl min x

/-- Python `max` over a nonempty list. -/
def listMax : List ℚ → ℚ
  | [] => 0
  | x :: xs => xs.foldl max x

/-- Python `sum` over rationals. -/
def listSum (l : List ℚ) : ℚ :=
  l.foldl (· + ·) 0

/-- The `summary` dict of the analysis result (with the `health` and
`health_issues` keys the code adds at the end). -/
structure Summary where
  ds_total : Nat
  us_total : Nat
  ds_power_min : ℚ
  ds_power_max : ℚ
  ds_power_avg : ℚ
  us_power_min : ℚ
  us_power_max : ℚ
  us_power_avg : ℚ
  ds_snr_min : ℚ
  ds_snr_avg : ℚ
  ds_correctable_errors : ℚ
  ds_uncorrectable_errors : ℚ
  health : String
  health_issues : List String
deriving DecidableEq, Repr

/-- The full analysis result. -/
structure AnalyzeResult where
  summary : Summary
  ds_channels : List DsRec
  us_channels : List UsRec
deriving DecidableEq, Repr

/-- The input payload after the structural `data.get("channelDs", {})` /
`.get("docsis30", [])` accesses: four channel lists, with a structurally
absent list being the empty list (so `analyze({})` is the all-empty
input). -/
structure AnalyzeInput where
  ds30 : List Chan
  ds31 : List Chan
  us30 : List Chan
  us31 : List Chan
deriving DecidableEq, Repr

/-- The downstream pipeline of `analyze`: both loops (3.0 first), then the
sort by `channel_id`. -/
def dsRecords (th : Thresholds) (inp : AnalyzeInput) : Except String (List DsRec) := do
  let l30 ← mapE (buildDs30 th) inp.ds30
  let l31 ← mapE (buildDs31 th) inp.ds31
  sortByKey (fun c => c.channel_id) (l30 ++ l31)

/-- The upstream pipeline of `analyze`. -/
def usRecords (th : Thresholds) (inp : AnalyzeInput) : Except String (List UsRec) := do
  let l30 ← mapE (buildUs th "3.0") inp.us30
  let l31 ← mapE (buildUs th "3.1") inp.us31
  sortByKey (fun c => c.channel_id) (l30 ++ l31)

/-- The global issue derivation of `analyze`: substring matches over the
per-channel detail strings, critical over warning per direction
(if/elif), plus the independent uncorrectable-error check. -/
def globalIssues (th : Thresholds) (dsc : List DsRec) (usc : List UsRec)
    (total_uncorr : ℚ) : List String :=
  (if dsc.any (fun c => strContains c.health_detail "power critical") then ["ds_power_critical"]
   else if dsc.any (fun c => strContains c.health_detail "power warning") then ["ds_power_warn"]
   else [])
  ++ (if usc.any (fun c => strContains c.health_detail "power critical") then ["us_power_critical"]
      else if usc.any (fun c => strContains c.health_detail "power warning") then ["us_power_warn"]
      else [])
  ++ (if dsc.any (fun c => strContains c.health_detail "snr critical") then ["snr_critical"]
      else if dsc.any (fun c => strContains c.health_detail "snr warning") then ["snr_warn"]
      else [])
  ++ (if total_uncorr > _get_uncorr_threshold th then ["uncorr_errors_high"] else [])

/-- The overall health verdict: `good` on no issues, `poor` when any issue
contains `"critical"`, else `marginal`. -/
def overallHealth (issues : List String) : String :=
  if issues.isEmpty then "good"
  else if issues.any (fun i => strContains i "critical") then "poor"
  else "marginal"

/-- The pure tail of `analyze`: summary statistics (0 for empty
reductions), global issues and the overall health, assembled into the
result dict. -/
def assembleResult (th : Thresholds) (ds_channels : List DsRec) (us_channels : List UsRec)
    (total_corr total_uncorr : ℚ) : AnalyzeResult :=
  let ds_powers := ds_channels.map (fun c => c.power)
  let us_powers := us_channels.map (fun c => c.power)
  let ds_snrs := ds_channels.filterMap (fun c => c.snr)
  let issues := globalIssues th ds_channels us_channels total_uncorr
  {
    summary := {
      ds_total := ds_channels.length,
      us_total := us_channels.length,
      ds_power_min := if ds_powers.isEmpty then 0 else round1 (listMin ds_powers),
      ds_power_max := if ds_powers.isEmpty then 0 else round1 (listMax ds_powers),
      ds_power_avg := if ds_powers.isEmpty then 0
        else round1 (listSum ds_powers / (ds_powers.length : ℚ)),
      us_power_min := if us_powers.isEmpty then 0 else round1 (listMin us_powers),
      us_power_max := if us_powers.isEmpty then 0 else round1 (listMax us_powers),
      us_power_avg := if us_powers.isEmpty then 0
        else round1 (listSum us_powers / (us_powers.length : ℚ)),
      ds_snr_min := if ds_snrs.isEmpty then 0 else round1 (listMin ds_snrs),
      ds_snr_avg := if ds_snrs.isEmpty then 0
        else round1 (listSum ds_snrs / (ds_snrs.length : ℚ)),
      ds_correctable_errors := total_corr,
      ds_uncorrectable_errors := total_uncorr,
      health := overallHealth issues,
      health_issues := issues },
    ds_channels := ds_channels,
    us_channels := us_channels }

/-- `analyze(data)`: classify all four channel lists, sort per direction,
sum the raw error counts, then assemble the result. -/
def analyze (th : Thresholds) (inp : AnalyzeInput) : Except String AnalyzeResult := do
  let ds_channels ← dsRecords th inp
  let us_channels ← usRecords th inp
  let total_corr ← pySum (ds_channels.map (fun c => c.correctable_errors))
  let total_uncorr ← pySum (ds_channels.map (fun c => c.uncorrectable_errors))
  pure (assembleResult th ds_channels us_channels total_corr total_uncorr)

/-! ## The two threshold configurations -/

/-- The threshold table when `thresholds.json` is absent or malformed:
the empty mapping, so every bound is its hardcoded constant. -/
def emptyThresholds : Thresholds :=
  { downstream_power := [], upstream_power := [], snr := [], errors_uncorrectable := none }

/-- Modelled from the spec: the repository ships a `thresholds.json`
(Vodafone VFKD guidelines) that is not among the sources; the spec fixes
its observable content: a `_default` key naming the fallback sub-key per
category sub-mapping, a downstream power good boundary of 7.0 dBmV and
critical max of 10.0 (`256QAM` default), an upstream warn boundary of
50.0 and critical boundary of 54.0, SNR bounds equal to the hardcoded
33.0/29.0, and an `errors` scalar equal to the hardcoded 10000.  Bounds
the spec leaves unstated are omitted from the records, so they resolve
to their hardcoded constants. -/
def defaultThresholds : Thresholds :=
  { downstream_power :=
      [("_default", .str "256QAM"),
       ("256QAM", .band { good_min := none, good_max := some 7,
                          immediate_min := none, immediate_max := some 10 })],
    upstream_power :=
      [("_default", .str "EuroDOCSIS 3.0"),
       ("EuroDOCSIS 3.0", .band { good_min := none, good_max := some 50,
                                  immediate_min := none, immediate_max := some 54 })],
    snr :=
      [("_default", .str "256QAM"),
       ("256QAM", .band { good_min := some 33, good_max := none,
                          immediate_min := some 29, immediate_max := none })],
    errors_uncorrectable := some 10000 }

/-! ## Well-formedness and concrete scenario inputs -/


/-- The value is a Python `int`. -/
def isVInt : PyVal → Bool
  | .vInt _ => true
  | _ => false

/-- The channel's modulation chain normalizes to a string that does not
collide with the reserved `_default` key of the threshold table. -/
def modOK (ch : Chan) : Bool :=
  match normalizeMod (modOrTypeRaw ch) with
  | .ok m => m ≠ "_default"
  | .error _ => false

/-- A downstream reading whose classification and aggregation cannot
raise: its modulation chain is a string, and its `channelID` and raw
error counts are ints (when present). -/
def dsChanWF (ch : Chan) : Bool :=
  modOK ch && isVInt (pyGetD ch "channelID" (.vInt 0)) &&
    isVInt (pyGetD ch "corrErrors" (.vInt 0)) && isVInt (pyGetD ch "nonCorrErrors" (.vInt 0))

/-- An upstream reading only needs an int `channelID` (its modulation is
never normalized and its error counts are never summed). -/
def usChanWF (ch : Chan) : Bool :=
  isVInt (pyGetD ch "channelID" (.vInt 0))

/-- Every channel of the input is well formed in the above sense; the
power, `mse` and `mer` fields stay arbitrary. -/
def inputWF (inp : AnalyzeInput) : Bool :=
  (inp.ds30 ++ inp.ds31).all dsChanWF && (inp.us30 ++ inp.us31).all usChanWF

/-- A FritzBox-style downstream DOCSIS 3.0 reading used in concrete
scenarios (power and MSE given as numbers). -/
def mkDs30 (cid : Int) (pw mse : ℚ) : Chan :=
  [("channelID", .vInt cid), ("frequency", .vStr "602 MHz"), ("powerLevel", .vFloat pw),
   ("modulation", .vStr "256QAM"), ("mse", .vFloat mse),
   ("corrErrors", .vInt 0), ("nonCorrErrors", .vInt 0)]

/-- A downstream DOCSIS 3.1 reading used in concrete scenarios. -/
def mkDs31 (cid : Int) (pw mer : ℚ) : Chan :=
  [("channelID", .vInt cid), ("frequency", .vStr "159 MHz"), ("powerLevel", .vFloat pw),
   ("modulation", .vStr "4096QAM"), ("mer", .vFloat mer),
   ("corrErrors", .vInt 0), ("nonCorrErrors", .vInt 0)]

/-- The all-empty input, i.e. what `analyze` sees for `analyze({})` after
its structural `.get` defaults. -/
def emptyInput : AnalyzeInput :=
  ⟨[], [], [], []⟩

/-- One downstream channel at power 12.0, everything else healthy. -/
def c2Input : AnalyzeInput :=
  ⟨[mkDs30 1 12 (-35)], [], [], []⟩

/-- A complete, otherwise healthy reading whose `corrErrors` is a
non-numeric string. -/
def c3BadChan : Chan :=
  [("channelID", .vInt 1), ("frequency", .vStr "602 MHz"), ("powerLevel", .vFloat 2),
   ("modulation", .vStr "256QAM"), ("mse", .vFloat (-35)),
   ("corrErrors", .vStr "not a number"), ("nonCorrErrors", .vInt 0)]

/-- An input whose power, MSE fields are malformed (non-numeric strings,
`None`) but whose ids, error counts and modulations are well formed. -/
def c3WitnessInput : AnalyzeInput :=
  ⟨[[("channelID", .vInt 1), ("powerLevel", .vStr "garbage"), ("mse", .vStr "bad")]], [],
   [[("channelID", .vInt 1), ("powerLevel", .vNone)]], []⟩

/-- The record `analyze` builds for `mkDs30 1 3 (-35)` under the shipped
thresholds. -/
def c4Rec : DsRec :=
  { channel_id := .vInt 1, frequency := .vStr "602 MHz", power := 3,
    modulation := .vStr "256QAM", snr := some 35, correctable_errors := .vInt 0,
    uncorrectable_errors := .vInt 0, docsis_version := "3.0", health := "good",
    health_detail := "" }

/-- Downstream ids [3, 1, 2] across mixed DOCSIS versions (the concrete
sorting example of the spec). -/
def c7Input : AnalyzeInput :=
  ⟨[mkDs30 3 2 (-35), mkDs30 1 2 (-35)], [mkDs31 2 2 38], [], []⟩

/-- Downstream channels sharing id 1 in both versions (tie case). -/
def c7TieInput : AnalyzeInput :=
  ⟨[mkDs30 1 2 (-35)], [mkDs31 1 2 38], [], []⟩

/-- The record `analyze` builds for `mkDs30 1 2 (-35)` under the shipped
thresholds. -/
def c7Rec : DsRec :=
  { channel_id := .vInt 1, frequency := .vStr "602 MHz", power := 2,
    modulation := .vStr "256QAM", snr := some 35, correctable_errors := .vInt 0,
    uncorrectable_errors := .vInt 0, docsis_version := "3.0", health := "good",
    health_detail := "" }

/-- The record `analyze` builds for `mkDs31 1 2 38` under the shipped
thresholds. -/
def c7Rec31 : DsRec :=
  { channel_id := .vInt 1, frequency := .vStr "159 MHz", power := 2,
    modulation := .vStr "4096QAM", snr := some 38, correctable_errors := .vInt 0,
    uncorrectable_errors := .vInt 0, docsis_version := "3.1", health := "good",
    health_detail := "" }

/-- Two downstream 3.0 channels: one with a genuine zero MSE reading, one
with MSE -35. -/
def c10Input : AnalyzeInput :=
  ⟨[mkDs30 1 3 0, mkDs30 2 3 (-35)], [], [], []⟩

/-! ## General lemmas about the embedding -/

instance {ε α : Type} [DecidableEq ε] [DecidableEq α] : DecidableEq (Except ε α) := fun a b =>
  match a, b with
  | .ok x, .ok y => if h : x = y then .isTrue (by rw [h]) else .isFalse (by simp [h])
  | .error e, .error f => if h : e = f then .isTrue (by rw [h]) else .isFalse (by simp [h])
  | .ok _, .error _ => .isFalse (by simp)
  | .error _, .ok _ => .isFalse (by simp)

theorem exBind_ok {α β} {x : Except String α} {f : α → Except String β} {b : β} :
    (x >>= f) = .ok b ↔ ∃ a, x = .ok a ∧ f a = .ok b := by
  cases x with
  | ok a => simp [Bind.bind, Except.bind]
  | error e => simp [Bind.bind, Except.bind]

theorem mapE_nil {f : α → Except String β} : mapE f [] = .ok [] := rfl

theorem mapE_cons {f : α → Except String β} {a : α} {l : List α} :
    mapE f (a :: l) = (f a) >>= fun b => (mapE f l) >>= fun bs => pure (b :: bs) := rfl

theorem mapE_ok_length {f : α → Except String β} :
    ∀ {l : List α} {bs : List β}, mapE f l = .ok bs → bs.length = l.length := by
  intro l
  induction l with
  | nil => intro bs h; simp [mapE] at h; simp [← h]
  | cons a as ih =>
    intro bs h
    rw [mapE_cons] at h
    obtain ⟨b, hb, h2⟩ := exBind_ok.mp h
    obtain ⟨cs, hcs, h3⟩ := exBind_ok.mp h2
    simp only [pure, Except.pure, Except.ok.injEq] at h3
    subst h3
    simp [ih hcs]

theorem mapE_ok_mem {f : α → Except String β} :
    ∀ {l : List α} {bs : List β}, mapE f l = .ok bs → ∀ b ∈ bs, ∃ a ∈ l, f a = .ok b := by
  intro l
  induction l with
  | nil => intro bs h; simp [mapE] at h; subst h; intro b hb; cases hb
  | cons a as ih =>
    intro bs h
    rw [mapE_cons] at h
    obtain ⟨b, hb, h2⟩ := exBind_ok.mp h
    obtain ⟨cs, hcs, h3⟩ := exBind_ok.mp h2
    simp only [pure, Except.pure, Except.ok.injEq] at h3
    subst h3
    intro c hc
    rcases List.mem_cons.mp hc with h | h
    · exact ⟨a, List.mem_cons_self _ _, h ▸ hb⟩
    · obtain ⟨a2, ha2, hfa2⟩ := ih hcs c h
      exact ⟨a2, List.mem_cons_of_mem _ ha2, hfa2⟩

theorem mapE_ok_of_all (f : α → Except String β) (l : List α) :
    (∀ a ∈ l, ∃ b, f a = .ok b) → ∃ bs, mapE f l = .ok bs := by
  induction l with
  | nil => intro _; exact ⟨[], rfl⟩
  | cons a as ih =>
    intro h
    obtain ⟨b, hb⟩ := h a (List.mem_cons_self _ _)
    obtain ⟨bs, hbs⟩ := ih (fun x hx => h x (List.mem_cons_of_mem _ hx))
    refine ⟨b :: bs, ?_⟩
    rw [mapE_cons, hb, hbs]
    rfl

theorem pySum_ok_of_num (l : List PyVal) (h : ∀ v ∈ l, (numQ v).isSome) :
    ∀ acc : ℚ, ∃ q, pySumFrom acc l = .ok q := by
  induction l with
  | nil => intro acc; exact ⟨acc, rfl⟩
  | cons v vs ih =>
    intro acc
    have hv := h v (List.mem_cons_self _ _)
    rcases hq : numQ v with - | q
    · rw [hq] at hv; simp at hv
    · obtain ⟨r, hr⟩ := ih (fun x hx => h x (List.mem_cons_of_mem _ hx)) (acc + q)
      refine ⟨r, ?_⟩
      show (pyAdd acc v) >>= (fun a => pySumFrom a vs) = .ok r
      rw [pyAdd, hq]
      exact hr

/-! ## Lemmas about the stable sort -/

theorem insertLe_perm (le : α → α → Bool) (a : α) :
    ∀ l : List α, (insertLe le a l).Perm (a :: l) := by
  intro l
  induction l with
  | nil => simp [insertLe]
  | cons b bs ih =>
    rw [insertLe]
    by_cases h : le a b
    · simp [h]
    · simp only [h, if_false]
      exact (ih.cons b).trans (List.Perm.swap a b bs)

theorem mem_insertLe {le : α → α → Bool} {a x : α} {l : List α} :
    x ∈ insertLe le a l ↔ x = a ∨ x ∈ l := by
  rw [(insertLe_perm le a l).mem_iff]
  simp

theorem insertLe_pairwise {le : α → α → Bool}
    (htrans : ∀ a b c, le a b = true → le b c = true → le a c = true)
    (htotal : ∀ a b, (le a b || le b a) = true) (a : α) :
    ∀ {l : List α}, l.Pairwise (fun x y => le x y = true) →
      (insertLe le a l).Pairwise (fun x y => le x y = true) := by
  intro l
  induction l with
  | nil => intro _; simp [insertLe]
  | cons b bs ih =>
    intro h
    obtain ⟨hb, hbs⟩ := List.pairwise_cons.mp h
    rw [insertLe]
    by_cases hab : le a b
    · simp only [hab, if_true]
      refine List.Pairwise.cons ?_ h
      intro y hy
      rcases List.mem_cons.mp hy with rfl | hy
      · exact hab
      · exact htrans a b y hab (hb y hy)
    · have hba : le b a := by
        have := htotal a b
        simp [hab] at this
        exact this
      simp only [hab, if_false]
      refine List.Pairwise.cons ?_ (ih hbs)
      intro y hy
      rcases mem_insertLe.mp hy with rfl | hy
      · exact hba
      · exact hb y hy

theorem insSort_perm (le : α → α → Bool) : ∀ l : List α, (insSort le l).Perm l := by
  intro l
  induction l with
  | nil => simp [insSort]
  | cons a as ih =>
    rw [insSort]
    exact (insertLe_perm le a (insSort le as)).trans (ih.cons a)

theorem insSort_pairwise {le : α → α → Bool}
    (htrans : ∀ a b c, le a b = true → le b c = true → le a c = true)
    (htotal : ∀ a b, (le a b || le b a) = true) :
    ∀ l : List α, (insSort le l).Pairwise (fun x y => le x y = true) := by
  intro l
  induction l with
  | nil => simp [insSort]
  | cons a as ih =>
    rw [insSort]
    exact insertLe_pairwise htrans htotal a ih

theorem insertLe_eq_append (le : α → α → Bool) (a : α) :
    ∀ l : List α, ∃ s t, l = s ++ t ∧ insertLe le a l = s ++ a :: t := by
  intro l
  induction l with
  | nil => exact ⟨[], [], rfl, rfl⟩
  | cons b bs ih =>
    rw [insertLe]
    by_cases h : le a b
    · exact ⟨[], b :: bs, rfl, by simp [h]⟩
    · obtain ⟨s, t, h1, h2⟩ := ih
      exact ⟨b :: s, t, by simp [h1], by simp [h, h2]⟩

theorem sublist_insertLe {le : α → α → Bool} {a : α} {s l : List α}
    (h : s.Sublist l) : s.Sublist (insertLe le a l) := by
  obtain ⟨s1, s2, h1, h2⟩ := insertLe_eq_append le a l
  rw [h2]
  exact List.Sublist.middle (h1 ▸ h) a

theorem pair_sublist_insertLe {le : α → α → Bool} {a b : α}
    (hab : le a b = true) :
    ∀ {l : List α}, b ∈ l → [a, b].Sublist (insertLe le a l) := by
  intro l
  induction l with
  | nil => intro h; cases h
  | cons c cs ih =>
    intro hb
    rw [insertLe]
    by_cases hac : le a c
    · simp only [hac, if_true]
      exact List.Sublist.cons₂ a (List.singleton_sublist.mpr hb)
    · simp only [hac, if_false]
      rcases List.mem_cons.mp hb with rfl | hb
      · exact absurd hab hac
      · exact (ih hb).cons c

theorem pair_sublist_insSort {le : α → α → Bool} {a b : α}
    (hab : le a b = true) :
    ∀ {l : List α}, [a, b].Sublist l → [a, b].Sublist (insSort le l) := by
  intro l
  induction l with
  | nil => intro h; simp at h
  | cons x xs ih =>
    intro h
    rw [insSort]
    cases h with
    | cons _ h2 => exact sublist_insertLe (ih h2)
    | cons₂ _ h2 =>
      have hb : b ∈ insSort le xs := by
        rw [(insSort_perm le xs).mem_iff]
        exact List.singleton_sublist.mp h2
      exact pair_sublist_insertLe hab hb

theorem keyLe_trans : ∀ a b c : PyVal, keyLe a b = true → keyLe b c = true → keyLe a c = true := by
  intro a b c h1 h2
  cases a <;> cases b <;> cases c <;>
    simp only [keyLe, numQ, pyRank, decide_eq_true_eq] at h1 h2 ⊢ <;>
    first
      | rfl
      | omega
      | exact le_trans h1 h2

theorem keyLe_total : ∀ a b : PyVal, (keyLe a b || keyLe b a) = true := by
  intro a b
  cases a <;> cases b <;>
    simp only [keyLe, numQ, pyRank, Bool.or_eq_true, decide_eq_true_eq] <;>
    first
      | exact Or.inl rfl
      | exact le_total _ _

theorem sortByKey_ok_perm {key : α → PyVal} {rs out : List α}
    (h : sortByKey key rs = .ok out) : out.Perm rs := by
  rw [sortByKey] at h
  by_cases hc : allComparable (rs.map key)
  · simp only [hc, if_true, Except.ok.injEq] at h
    exact h ▸ insSort_perm _ rs
  · simp [hc] at h

theorem sortByKey_ok_pairwise {key : α → PyVal} {rs out : List α}
    (h : sortByKey key rs = .ok out) :
    out.Pairwise (fun x y => keyLe (key x) (key y) = true) := by
  rw [sortByKey] at h
  by_cases hc : allComparable (rs.map key)
  · simp only [hc, if_true, Except.ok.injEq] at h
    subst h
    exact insSort_pairwise
      (fun x y z => keyLe_trans (key x) (key y) (key z))
      (fun x y => keyLe_total (key x) (key y)) rs
  · simp [hc] at h

theorem sortByKey_ok_stable {key : α → PyVal} {rs out : List α} {a b : α}
    (h : sortByKey key rs = .ok out) (hab : keyLe (key a) (key b) = true)
    (hsub : [a, b].Sublist rs) : [a, b].Sublist out := by
  rw [sortByKey] at h
  by_cases hc : allComparable (rs.map key)
  · simp only [hc, if_true, Except.ok.injEq] at h
    subst h
    exact @pair_sublist_insSort _ (fun x y => keyLe (key x) (key y)) a b hab rs hsub
  · simp [hc] at h

theorem allComparable_of_int {ks : List PyVal}
    (h : ∀ k ∈ ks, ∃ n : Int, k = .vInt n) : allComparable ks = true := by
  induction ks with
  | nil => rfl
  | cons k ks ih =>
    rw [allComparable, Bool.and_eq_true]
    constructor
    · rw [List.all_eq_true]
      intro k2 hk2
      obtain ⟨n, rfl⟩ := h k (List.mem_cons_self _ _)
      obtain ⟨m, rfl⟩ := h k2 (List.mem_cons_of_mem _ hk2)
      rfl
    · exact ih (fun x hx => h x (List.mem_cons_of_mem _ hx))

theorem sortByKey_ok_of_int (key : α → PyVal) (rs : List α)
    (h : ∀ r ∈ rs, ∃ n : Int, key r = .vInt n) :
    sortByKey key rs = .ok (insSort (fun a b => keyLe (key a) (key b)) rs) := by
  rw [sortByKey]
  have : allComparable (rs.map key) = true := by
    apply allComparable_of_int
    intro k hk
    obtain ⟨r, hr, rfl⟩ := List.mem_map.mp hk
    exact h r hr
  simp [this]

/-! ## Inversion and success lemmas for the pipeline -/

theorem exBind_ok_l {α β} {a : α} {f : α → Except String β} :
    (Except.ok a : Except String α) >>= f = f a := rfl

theorem exPure_ok {α} {a : α} {r : α} :
    (pure a : Except String α) = .ok r ↔ r = a := by
  simp [pure, Except.pure, eq_comm]

theorem dsRecords_ok_iff {th : Thresholds} {inp : AnalyzeInput} {dsc : List DsRec} :
    dsRecords th inp = .ok dsc ↔
      ∃ l30 l31, mapE (buildDs30 th) inp.ds30 = .ok l30 ∧
        mapE (buildDs31 th) inp.ds31 = .ok l31 ∧
        sortByKey (fun c => c.channel_id) (l30 ++ l31) = .ok dsc := by
  simp only [dsRecords, exBind_ok]
  exact ⟨fun ⟨a, ha, b, hb, hr⟩ => ⟨a, b, ha, hb, hr⟩, fun ⟨a, b, ha, hb, hr⟩ => ⟨a, ha, b, hb, hr⟩⟩

theorem usRecords_ok_iff {th : Thresholds} {inp : AnalyzeInput} {usc : List UsRec} :
    usRecords th inp = .ok usc ↔
      ∃ l30 l31, mapE (buildUs th "3.0") inp.us30 = .ok l30 ∧
        mapE (buildUs th "3.1") inp.us31 = .ok l31 ∧
        sortByKey (fun c => c.channel_id) (l30 ++ l31) = .ok usc := by
  simp only [usRecords, exBind_ok]
  exact ⟨fun ⟨a, ha, b, hb, hr⟩ => ⟨a, b, ha, hb, hr⟩, fun ⟨a, b, ha, hb, hr⟩ => ⟨a, ha, b, hb, hr⟩⟩

theorem analyze_ok_iff {th : Thresholds} {inp : AnalyzeInput} {r : AnalyzeResult} :
    analyze th inp = .ok r ↔
      ∃ dsc usc tc tu, dsRecords th inp = .ok dsc ∧ usRecords th inp = .ok usc ∧
        pySum (dsc.map (fun c => c.correctable_errors)) = .ok tc ∧
        pySum (dsc.map (fun c => c.uncorrectable_errors)) = .ok tu ∧
        r = assembleResult th dsc usc tc tu := by
  simp only [analyze, exBind_ok, exPure_ok]
  exact ⟨fun ⟨a, ha, b, hb, c, hc, d, hd, hr⟩ => ⟨a, b, c, d, ha, hb, hc, hd, hr⟩,
    fun ⟨a, b, c, d, ha, hb, hc, hd, hr⟩ => ⟨a, ha, b, hb, c, hc, d, hd, hr⟩⟩

theorem assembleResult_health_issues {th dsc usc tc tu} :
    (assembleResult th dsc usc tc tu).summary.health_issues = globalIssues th dsc usc tu := rfl

theorem assembleResult_channels {th dsc usc tc tu} :
    (assembleResult th dsc usc tc tu).ds_channels = dsc ∧
      (assembleResult th dsc usc tc tu).us_channels = usc := ⟨rfl, rfl⟩


theorem ds_resolver_default_ok {m : String} (h : m ≠ "_default") :
    ∃ pt, _get_ds_power_thresholds defaultThresholds (some m) = .ok pt := by
  by_cases h2 : m = "256QAM"
  · subst h2
    exact ⟨⟨-4, 7, -8, 10⟩, by decide⟩
  · have e1 : (m == "_default") = false := beq_eq_false_iff_ne.mpr h
    have e2 : (m == "256QAM") = false := beq_eq_false_iff_ne.mpr h2
    have hl : List.lookup m defaultThresholds.downstream_power = none := by
      simp [defaultThresholds, List.lookup, e1, e2]
    refine ⟨⟨-4, 7, -8, 10⟩, ?_⟩
    simp [_get_ds_power_thresholds, hl]
    rfl

theorem snr_resolver_default {m : String} (h : m ≠ "_default") :
    _get_snr_thresholds defaultThresholds (some m) = .ok ⟨33, 29⟩ := by
  by_cases h2 : m = "256QAM"
  · subst h2
    decide
  · have e1 : (m == "_default") = false := beq_eq_false_iff_ne.mpr h
    have e2 : (m == "256QAM") = false := beq_eq_false_iff_ne.mpr h2
    have hl : List.lookup m defaultThresholds.snr = none := by
      simp [defaultThresholds, List.lookup, e1, e2]
    simp [_get_snr_thresholds, hl]
    rfl

theorem us_resolver_default_ok (key : Option String) :
    _get_us_power_thresholds defaultThresholds key = .ok ⟨41, 50, 35, 54⟩ := by
  simp only [_get_us_power_thresholds]
  split_ifs <;> rfl

theorem ds_resolver_empty (key : Option String) :
    _get_ds_power_thresholds emptyThresholds key = .ok ⟨-4, 13, -8, 20⟩ := by
  cases key <;> rfl

theorem us_resolver_empty (key : Option String) :
    _get_us_power_thresholds emptyThresholds key = .ok ⟨41, 47, 35, 53⟩ := by
  simp only [_get_us_power_thresholds]
  split_ifs <;> rfl

theorem snr_resolver_empty (key : Option String) :
    _get_snr_thresholds emptyThresholds key = .ok ⟨33, 29⟩ := by
  cases key <;> rfl

/-! ## Case analysis of the classifier -/

theorem powerIssues_cases (pt : PowerThresholds) (p : ℚ) :
    powerIssues pt p = [] ∨ powerIssues pt p = ["power critical"] ∨
      powerIssues pt p = ["power warning"] := by
  rw [powerIssues]
  split_ifs <;> simp

theorem snrIssues_cases (st : SnrThresholds) (q : ℚ) :
    snrIssues st q = [] ∨ snrIssues st q = ["snr critical"] ∨
      snrIssues st q = ["snr warning"] := by
  rw [snrIssues]
  split_ifs <;> simp

theorem assess_ds_ok_inv {th : Thresholds} {ch : Chan} {ver : String} {hd : String × String}
    (h : _assess_ds_channel th ch ver = .ok hd) :
    ∃ pi si, (pi = [] ∨ pi = ["power critical"] ∨ pi = ["power warning"]) ∧
      (si = [] ∨ si = ["snr critical"] ∨ si = ["snr warning"]) ∧
      hd = (_channel_health (pi ++ si), _health_detail (pi ++ si)) := by
  simp only [_assess_ds_channel] at h
  obtain ⟨m, hm, h⟩ := exBind_ok.mp h
  obtain ⟨pt, hpt, h⟩ := exBind_ok.mp h
  rcases hsv : dsSnrVal ch ver with - | sv <;> rw [hsv] at h
  · obtain ⟨issues, hiss, h⟩ := exBind_ok.mp h
    rw [exPure_ok] at hiss h
    subst hiss
    subst h
    exact ⟨powerIssues pt (_parse_float (pyGet ch "powerLevel")), [],
      powerIssues_cases _ _, Or.inl rfl, by simp⟩
  · obtain ⟨st, hst, h⟩ := exBind_ok.mp h
    obtain ⟨issues, hiss, h⟩ := exBind_ok.mp h
    rw [exPure_ok] at hiss h
    subst hiss
    subst h
    exact ⟨powerIssues pt (_parse_float (pyGet ch "powerLevel")), snrIssues st sv,
      powerIssues_cases _ _, snrIssues_cases _ _, rfl⟩

theorem assess_us_ok_inv {th : Thresholds} {ch : Chan} {ver : String} {hd : String × String}
    (h : _assess_us_channel th ch ver = .ok hd) :
    ∃ pi, (pi = [] ∨ pi = ["power critical"] ∨ pi = ["power warning"]) ∧
      hd = (_channel_health pi, _health_detail pi) := by
  simp only [_assess_us_channel] at h
  obtain ⟨pt, hpt, h⟩ := exBind_ok.mp h
  rw [exPure_ok] at h
  subst h
  exact ⟨powerIssues pt (_parse_float (pyGet ch "powerLevel")), powerIssues_cases _ _, rfl⟩

/-! ## Success of classification and aggregation on well-formed input -/

theorem assess_ds_default_ok {ch : Chan} (h : modOK ch = true) (ver : String) :
    ∃ hd, _assess_ds_channel defaultThresholds ch ver = .ok hd := by
  rcases hnm : normalizeMod (modOrTypeRaw ch) with e | m
  · simp [modOK, hnm] at h
  · have hm : m ≠ "_default" := by
      simp only [modOK, hnm, decide_eq_true_eq] at h
      exact h
    obtain ⟨pt, hpt⟩ := ds_resolver_default_ok hm
    simp only [_assess_ds_channel]
    rw [hnm, exBind_ok_l, hpt, exBind_ok_l]
    rcases hsv : dsSnrVal ch ver with - | sv
    · exact ⟨_, rfl⟩
    · simp only [snr_resolver_default hm, exBind_ok_l]
      exact ⟨_, rfl⟩

theorem assess_us_default_ok (ch : Chan) (ver : String) :
    ∃ hd, _assess_us_channel defaultThresholds ch ver = .ok hd := by
  simp only [_assess_us_channel]
  rw [us_resolver_default_ok (some ver), exBind_ok_l]
  exact ⟨_, rfl⟩

theorem buildDs30_default_ok {ch : Chan} (h : modOK ch = true) :
    ∃ r, buildDs30 defaultThresholds ch = .ok r := by
  obtain ⟨hd, hhd⟩ := assess_ds_default_ok h "3.0"
  simp only [buildDs30]
  rw [hhd, exBind_ok_l]
  exact ⟨_, rfl⟩

theorem buildDs31_default_ok {ch : Chan} (h : modOK ch = true) :
    ∃ r, buildDs31 defaultThresholds ch = .ok r := by
  obtain ⟨hd, hhd⟩ := assess_ds_default_ok h "3.1"
  simp only [buildDs31]
  rw [hhd, exBind_ok_l]
  exact ⟨_, rfl⟩

theorem buildUs_default_ok (ch : Chan) (ver : String) :
    ∃ r, buildUs defaultThresholds ver ch = .ok r := by
  obtain ⟨hd, hhd⟩ := assess_us_default_ok ch ver
  simp only [buildUs]
  rw [hhd, exBind_ok_l]
  exact ⟨_, rfl⟩

theorem buildDs30_ok_fields {th : Thresholds} {ch : Chan} {r : DsRec}
    (h : buildDs30 th ch = .ok r) :
    r.channel_id = pyGetD ch "channelID" (.vInt 0) ∧
      r.correctable_errors = pyGetD ch "corrErrors" (.vInt 0) ∧
      r.uncorrectable_errors = pyGetD ch "nonCorrErrors" (.vInt 0) := by
  simp only [buildDs30] at h
  obtain ⟨hd, hhd, h⟩ := exBind_ok.mp h
  rw [exPure_ok] at h
  subst h
  exact ⟨rfl, rfl, rfl⟩

theorem buildDs31_ok_fields {th : Thresholds} {ch : Chan} {r : DsRec}
    (h : buildDs31 th ch = .ok r) :
    r.channel_id = pyGetD ch "channelID" (.vInt 0) ∧
      r.correctable_errors = pyGetD ch "corrErrors" (.vInt 0) ∧
      r.uncorrectable_errors = pyGetD ch "nonCorrErrors" (.vInt 0) := by
  simp only [buildDs31] at h
  obtain ⟨hd, hhd, h⟩ := exBind_ok.mp h
  rw [exPure_ok] at h
  subst h
  exact ⟨rfl, rfl, rfl⟩

theorem buildUs_ok_fields {th : Thresholds} {ver : String} {ch : Chan} {r : UsRec}
    (h : buildUs th ver ch = .ok r) :
    r.channel_id = pyGetD ch "channelID" (.vInt 0) := by
  simp only [buildUs] at h
  obtain ⟨hd, hhd, h⟩ := exBind_ok.mp h
  rw [exPure_ok] at h
  subst h
  rfl

theorem dsChanWF_parts {ch : Chan} (h : dsChanWF ch = true) :
    modOK ch = true ∧ isVInt (pyGetD ch "channelID" (.vInt 0)) = true ∧
      isVInt (pyGetD ch "corrErrors" (.vInt 0)) = true ∧
      isVInt (pyGetD ch "nonCorrErrors" (.vInt 0)) = true := by
  simp only [dsChanWF, Bool.and_eq_true] at h
  exact ⟨h.1.1.1, h.1.1.2, h.1.2, h.2⟩

theorem isVInt_exists {v : PyVal} (h : isVInt v = true) : ∃ n : Int, v = .vInt n := by
  cases v <;> simp [isVInt] at h ⊢

theorem isVInt_numQ {v : PyVal} (h : isVInt v = true) : (numQ v).isSome = true := by
  cases v <;> simp [isVInt, numQ] at h ⊢

theorem dsRecords_default_wf {inp : AnalyzeInput}
    (h : ∀ ch ∈ inp.ds30 ++ inp.ds31, dsChanWF ch = true) :
    ∃ dsc, dsRecords defaultThresholds inp = .ok dsc ∧
      dsc.length = inp.ds30.length + inp.ds31.length ∧
      ∀ r ∈ dsc, isVInt r.channel_id = true ∧ isVInt r.correctable_errors = true ∧
        isVInt r.uncorrectable_errors = true := by
  obtain ⟨l30, hl30⟩ := mapE_ok_of_all (buildDs30 defaultThresholds) inp.ds30
    (fun ch hch =>
      buildDs30_default_ok (dsChanWF_parts (h ch (List.mem_append_left _ hch))).1)
  obtain ⟨l31, hl31⟩ := mapE_ok_of_all (buildDs31 defaultThresholds) inp.ds31
    (fun ch hch =>
      buildDs31_default_ok (dsChanWF_parts (h ch (List.mem_append_right _ hch))).1)
  have hfields : ∀ r ∈ l30 ++ l31, isVInt r.channel_id = true ∧
      isVInt r.correctable_errors = true ∧ isVInt r.uncorrectable_errors = true := by
    intro r hr
    rcases List.mem_append.mp hr with hr | hr
    · obtain ⟨ch, hch, hb⟩ := mapE_ok_mem hl30 r hr
      obtain ⟨f1, f2, f3⟩ := buildDs30_ok_fields hb
      obtain ⟨-, g1, g2, g3⟩ := dsChanWF_parts (h ch (List.mem_append_left _ hch))
      exact ⟨f1 ▸ g1, f2 ▸ g2, f3 ▸ g3⟩
    · obtain ⟨ch, hch, hb⟩ := mapE_ok_mem hl31 r hr
      obtain ⟨f1, f2, f3⟩ := buildDs31_ok_fields hb
      obtain ⟨-, g1, g2, g3⟩ := dsChanWF_parts (h ch (List.mem_append_right _ hch))
      exact ⟨f1 ▸ g1, f2 ▸ g2, f3 ▸ g3⟩
  have hsort := sortByKey_ok_of_int (fun c : DsRec => c.channel_id)
    (l30 ++ l31) (fun r hr => isVInt_exists (hfields r hr).1)
  refine ⟨_, dsRecords_ok_iff.mpr ⟨l30, l31, hl30, hl31, hsort⟩, ?_, ?_⟩
  · have hperm := sortByKey_ok_perm hsort
    rw [hperm.length_eq, List.length_append, mapE_ok_length hl30, mapE_ok_length hl31]
  · intro r hr
    have hperm := sortByKey_ok_perm hsort
    exact hfields r (hperm.mem_iff.mp hr)

theorem usRecords_default_wf {inp : AnalyzeInput}
    (h : ∀ ch ∈ inp.us30 ++ inp.us31, usChanWF ch = true) :
    ∃ usc, usRecords defaultThresholds inp = .ok usc ∧
      usc.length = inp.us30.length + inp.us31.length := by
  obtain ⟨l30, hl30⟩ := mapE_ok_of_all (buildUs defaultThresholds "3.0") inp.us30
    (fun ch _ => buildUs_default_ok ch "3.0")
  obtain ⟨l31, hl31⟩ := mapE_ok_of_all (buildUs defaultThresholds "3.1") inp.us31
    (fun ch _ => buildUs_default_ok ch "3.1")
  have hfields : ∀ r ∈ l30 ++ l31, isVInt r.channel_id = true := by
    intro r hr
    rcases List.mem_append.mp hr with hr | hr
    · obtain ⟨ch, hch, hb⟩ := mapE_ok_mem hl30 r hr
      exact (buildUs_ok_fields hb) ▸ (h ch (List.mem_append_left _ hch))
    · obtain ⟨ch, hch, hb⟩ := mapE_ok_mem hl31 r hr
      exact (buildUs_ok_fields hb) ▸ (h ch (List.mem_append_right _ hch))
  have hsort := sortByKey_ok_of_int (fun c : UsRec => c.channel_id)
    (l30 ++ l31) (fun r hr => isVInt_exists (hfields r hr))
  refine ⟨_, usRecords_ok_iff.mpr ⟨l30, l31, hl30, hl31, hsort⟩, ?_⟩
  have hperm := sortByKey_ok_perm hsort
  rw [hperm.length_eq, List.length_append, mapE_ok_length hl30, mapE_ok_length hl31]

theorem analyze_default_wf_ok {inp : AnalyzeInput} (h : inputWF inp = true) :
    ∃ r, analyze defaultThresholds inp = .ok r ∧
      r.ds_channels.length = inp.ds30.length + inp.ds31.length ∧
      r.us_channels.length = inp.us30.length + inp.us31.length := by
  rw [inputWF, Bool.and_eq_true, List.all_eq_true, List.all_eq_true] at h
  obtain ⟨hds, hus⟩ := h
  obtain ⟨dsc, hdsc, hdslen, hdsf⟩ := dsRecords_default_wf hds
  obtain ⟨usc, husc, huslen⟩ := usRecords_default_wf hus
  obtain ⟨tc, htc⟩ := pySum_ok_of_num (dsc.map (fun c => c.correctable_errors))
    (by
      intro v hv
      obtain ⟨r, hr, rfl⟩ := List.mem_map.mp hv
      exact isVInt_numQ (hdsf r hr).2.1) 0
  obtain ⟨tu, htu⟩ := pySum_ok_of_num (dsc.map (fun c => c.uncorrectable_errors))
    (by
      intro v hv
      obtain ⟨r, hr, rfl⟩ := List.mem_map.mp hv
      exact isVInt_numQ (hdsf r hr).2.2) 0
  refine ⟨assembleResult defaultThresholds dsc usc tc tu,
    analyze_ok_iff.mpr ⟨dsc, usc, tc, tu, hdsc, husc, htc, htu, rfl⟩, ?_, ?_⟩
  · rw [(assembleResult_channels).1]
    exact hdslen
  · rw [(assembleResult_channels).2]
    exact huslen

/-! ## Claim theorems -/

/-- C1, counterexample: under the shipped thresholds the resolved
downstream critical max for 256QAM is 10.0, and a power of exactly 10.0
(the crit_max boundary) is classified as "power warning", not
"power critical" — the strict comparisons put the critical boundary in
the warning band, refuting the claim that a power exactly equal to
crit_min/crit_max is classified as power critical. -/
theorem c1_crit_boundary_counterexample :
    _get_ds_power_thresholds defaultThresholds (some "256QAM") =
      .ok { good_min := -4, good_max := 7, crit_min := -8, crit_max := 10 } ∧
    _assess_ds_channel defaultThresholds (mkDs30 1 10 (-35)) "3.0" =
      .ok ("warning", "power warning") ∧
    ("warning" : String) ≠ "critical" := by
  decide

/-- C1 (amended): for any resolved thresholds whose critical band
strictly contains the good band, a power exactly equal to good_min or
good_max produces no power issue, while a power exactly equal to
crit_min or crit_max produces exactly "power warning" (not critical);
in particular, under the shipped default thresholds a downstream power
of exactly 7.0 dBmV is good and 7.01 is warning. -/
theorem c1_boundary_inclusivity :
    (∀ (pt : PowerThresholds) (power : ℚ),
      pt.crit_min < pt.good_min → pt.good_min ≤ pt.good_max → pt.good_max < pt.crit_max →
        ((power = pt.good_min ∨ power = pt.good_max) → powerIssues pt power = []) ∧
        ((power = pt.crit_min ∨ power = pt.crit_max) →
          powerIssues pt power = ["power warning"])) ∧
    _assess_ds_channel defaultThresholds (mkDs30 1 7 (-35)) "3.0" = .ok ("good", "") ∧
    _assess_ds_channel defaultThresholds (mkDs30 1 (mkRat 701 100) (-35)) "3.0" =
      .ok ("warning", "power warning") := by
  refine ⟨?_, by decide, by decide⟩
  intro pt power h1 h2 h3
  constructor
  · rintro (rfl | rfl)
    · rw [powerIssues, if_neg (by push_neg; constructor <;> linarith),
        if_neg (by push_neg; constructor <;> linarith)]
    · rw [powerIssues, if_neg (by push_neg; constructor <;> linarith),
        if_neg (by push_neg; constructor <;> linarith)]
  · rintro (rfl | rfl)
    · rw [powerIssues, if_neg (by push_neg; constructor <;> linarith),
        if_pos (Or.inl (by linarith))]
    · rw [powerIssues, if_neg (by push_neg; constructor <;> linarith),
        if_pos (Or.inr (by linarith))]

/-- C1, witness: the general part of `c1_boundary_inclusivity` applied to
the hardcoded fallback bounds at the boundary powers -4 (good_min) and
-8 (crit_min). -/
theorem c1_witness :
    powerIssues { good_min := -4, good_max := 13, crit_min := -8, crit_max := 20 } (-4) = [] ∧
    powerIssues { good_min := -4, good_max := 13, crit_min := -8, crit_max := 20 } (-8) =
      ["power warning"] :=
  ⟨(c1_boundary_inclusivity.1 _ (-4) (by norm_num) (by norm_num) (by norm_num)).1 (Or.inl rfl),
   (c1_boundary_inclusivity.1 _ (-8) (by norm_num) (by norm_num) (by norm_num)).2 (Or.inl rfl)⟩

/-- C2: one downstream channel with power 12.0 (other fields healthy)
under the shipped default thresholds gets verdict "critical" with a
detail containing "power critical", and the aggregate has health "poor"
with health_issues exactly ["ds_power_critical"]. -/
theorem c2_power_critical_scenario :
    (analyze defaultThresholds c2Input).map
        (fun r => (r.ds_channels.map (fun c => (c.health, c.health_detail)),
          r.summary.health, r.summary.health_issues)) =
      .ok ([("critical", "power critical")], "poor", ["ds_power_critical"]) ∧
    (analyze defaultThresholds c2Input).map
        (fun r => r.ds_channels.map (fun c => strContains c.health_detail "power critical")) =
      .ok [true] := by
  with_unfolding_all decide

/-- C5: the empty input (what `analyze({})` reduces to) yields, under both
the absent-file fallback and the shipped thresholds, the same result
with zero totals, all min/max/avg statistics 0, empty channel lists,
empty health_issues and overall health "good". -/
theorem c5_empty_input_safety :
    analyze emptyThresholds emptyInput = analyze defaultThresholds emptyInput ∧
    (analyze emptyThresholds emptyInput).map (fun r => r.summary.ds_total) = .ok 0 ∧
    (analyze emptyThresholds emptyInput).map (fun r => r.summary.us_total) = .ok 0 ∧
    (analyze emptyThresholds emptyInput).map (fun r => r.summary.ds_power_min) = .ok 0 ∧
    (analyze emptyThresholds emptyInput).map (fun r => r.summary.ds_power_max) = .ok 0 ∧
    (analyze emptyThresholds emptyInput).map (fun r => r.summary.ds_power_avg) = .ok 0 ∧
    (analyze emptyThresholds emptyInput).map (fun r => r.summary.us_power_min) = .ok 0 ∧
    (analyze emptyThresholds emptyInput).map (fun r => r.summary.us_power_max) = .ok 0 ∧
    (analyze emptyThresholds emptyInput).map (fun r => r.summary.us_power_avg) = .ok 0 ∧
    (analyze emptyThresholds emptyInput).map (fun r => r.summary.ds_snr_min) = .ok 0 ∧
    (analyze emptyThresholds emptyInput).map (fun r => r.summary.ds_snr_avg) = .ok 0 ∧
    (analyze emptyThresholds emptyInput).map (fun r => r.ds_channels) = .ok [] ∧
    (analyze emptyThresholds emptyInput).map (fun r => r.us_channels) = .ok [] ∧
    (analyze emptyThresholds emptyInput).map (fun r => r.summary.health_issues) = .ok [] ∧
    (analyze emptyThresholds emptyInput).map (fun r => r.summary.health) = .ok "good" := by
  decide

/-- C9: the analyzer is a pure function of the loaded threshold table and
the input payload — the embedding carries no clock, randomness or other
hidden state (the source only additionally emits a log line), so two
calls on equal inputs give equal results. -/
theorem c9_determinism :
    ∀ (th1 th2 : Thresholds) (inp1 inp2 : AnalyzeInput),
      th1 = th2 → inp1 = inp2 → analyze th1 inp1 = analyze th2 inp2 := by
  intro th1 th2 inp1 inp2 h1 h2
  rw [h1, h2]

/-- C9, witness: two identical calls on a concrete input agree. -/
theorem c9_witness :
    analyze defaultThresholds c2Input = analyze defaultThresholds c2Input :=
  c9_determinism defaultThresholds defaultThresholds c2Input c2Input rfl rfl

/-- C3, counterexample: the error counts are carried through unparsed, so
an input whose single channel has a non-numeric corrErrors (all other
fields present and healthy) makes the error-total summation raise
TypeError — `analyze` fails instead of returning a complete result,
refuting the claim that every numeric extraction degrades to a
default. -/
theorem c3_counterexample :
    (analyze defaultThresholds ⟨[c3BadChan], [], [], []⟩).isOk = false := by
  with_unfolding_all decide

/-- C3 (amended): extractions that go through `_parse_float` (powerLevel,
mse, mer) can never raise, so `analyze` returns a complete result
covering all channels for every input whose raw-carried fields
(channelID, corrErrors, nonCorrErrors, the modulation chain) are well
typed, however malformed the power and SNR-proxy fields are; but a
non-numeric error count (or a non-int id, or a truthy non-string
modulation) does raise. -/
theorem c3_no_raise_amended :
    ∀ inp : AnalyzeInput, inputWF inp = true →
      (analyze defaultThresholds inp).map
          (fun r => (r.ds_channels.length, r.us_channels.length)) =
        .ok (inp.ds30.length + inp.ds31.length, inp.us30.length + inp.us31.length) := by
  intro inp h
  obtain ⟨r, hr, h1, h2⟩ := analyze_default_wf_ok h
  rw [hr]
  simp [Except.map, h1, h2]

/-- C3, witness: an input whose powerLevel fields are a non-numeric
string and `None` and whose mse is non-numeric is still analyzed in
full. -/
theorem c3_witness :
    (analyze defaultThresholds c3WitnessInput).map
        (fun r => (r.ds_channels.length, r.us_channels.length)) = .ok (1, 1) :=
  c3_no_raise_amended c3WitnessInput (by decide)

/-- C4, counterexample: a downstream 3.0 channel with mse -35.0 gets
`snr = 35.0` in its flat record — the absolute value, a non-negative
number, refuting the claim that the record carries the MSE-derived
proxy as a negative value. -/
theorem c4_counterexample :
    (analyze defaultThresholds ⟨[mkDs30 1 3 (-35)], [], [], []⟩).map
        (fun r => r.ds_channels.map (fun c => c.snr)) = .ok [some 35] ∧
    ¬ (35 : ℚ) < 0 := by
  constructor
  · with_unfolding_all decide
  · norm_num

/-- C4 (amended): for every downstream DOCSIS 3.0 channel with a truthy
MSE reading, the flat record carries the absolute value of the parsed
MSE — a non-negative value — in its snr field, while a DOCSIS 3.1
channel with a truthy MER carries the parsed MER directly. -/
theorem c4_snr_abs_amended :
    (∀ (th : Thresholds) (ch : Chan) (r : DsRec), pyTruthy (pyGet ch "mse") = true →
      buildDs30 th ch = .ok r →
        r.snr = some |_parse_float (pyGet ch "mse")| ∧ ∃ q, r.snr = some q ∧ 0 ≤ q) ∧
    (∀ (th : Thresholds) (ch : Chan) (r : DsRec), pyTruthy (pyGet ch "mer") = true →
      buildDs31 th ch = .ok r → r.snr = some (_parse_float (pyGet ch "mer"))) := by
  constructor
  · intro th ch r htr h
    simp only [buildDs30] at h
    obtain ⟨hd, hhd, h⟩ := exBind_ok.mp h
    rw [exPure_ok] at h
    subst h
    exact ⟨by simp [htr], |_parse_float (pyGet ch "mse")|, by simp [htr], abs_nonneg _⟩
  · intro th ch r htr h
    simp only [buildDs31] at h
    obtain ⟨hd, hhd, h⟩ := exBind_ok.mp h
    rw [exPure_ok] at h
    subst h
    simp [htr]

/-- C4, witness: the record built for `mkDs30 1 3 (-35)` carries the
absolute value of its parsed MSE. -/
theorem c4_witness :
    c4Rec.snr = some |_parse_float (pyGet (mkDs30 1 3 (-35)) "mse")| :=
  (c4_snr_abs_amended.1 defaultThresholds (mkDs30 1 3 (-35)) c4Rec (by decide)
    (by with_unfolding_all decide)).1

/-- C6, counterexample: with the shipped threshold table (which per the
spec stores the fallback sub-key name under a `_default` key in each
category sub-mapping), resolving downstream power or SNR thresholds for
the lookup key `"_default"` selects that string value and then raises
AttributeError on `t.get` — refuting the claim that resolution never
raises for every lookup key. -/
theorem c6_default_key_counterexample :
    (_get_ds_power_thresholds defaultThresholds (some "_default")).isOk = false ∧
    (_get_snr_thresholds defaultThresholds (some "_default")).isOk = false := by
  decide

/-- C6 (amended): with an empty or absent threshold set, resolution never
raises for any lookup key (including `none` and unrecognized strings)
and every bound equals its hardcoded constant — downstream power good
-4.0..13.0 / critical -8.0..20.0, upstream power good 41.0..47.0 /
critical 35.0..53.0, SNR 33.0/29.0, uncorrectable threshold 10000; and
with the shipped table, resolution never raises for any lookup key
other than the reserved `"_default"` key. -/
theorem c6_resolver_fallback_amended :
    (∀ key : Option String,
      _get_ds_power_thresholds emptyThresholds key =
        .ok { good_min := -4, good_max := 13, crit_min := -8, crit_max := 20 }) ∧
    (∀ key : Option String,
      _get_us_power_thresholds emptyThresholds key =
        .ok { good_min := 41, good_max := 47, crit_min := 35, crit_max := 53 }) ∧
    (∀ key : Option String,
      _get_snr_thresholds emptyThresholds key = .ok { good_min := 33, crit_min := 29 }) ∧
    _get_uncorr_threshold emptyThresholds = 10000 ∧
    (∀ key : Option String, key ≠ some "_default" →
      (_get_ds_power_thresholds defaultThresholds key).isOk = true ∧
      (_get_us_power_thresholds defaultThresholds key).isOk = true ∧
      (_get_snr_thresholds defaultThresholds key).isOk = true) := by
  refine ⟨ds_resolver_empty, us_resolver_empty, snr_resolver_empty, rfl, ?_⟩
  intro key hk
  refine ⟨?_, by rw [us_resolver_default_ok]; rfl, ?_⟩
  · cases key with
    | none => decide
    | some m =>
      have hm : m ≠ "_default" := fun hh => hk (by rw [hh])
      obtain ⟨pt, hpt⟩ := ds_resolver_default_ok hm
      rw [hpt]
      rfl
  · cases key with
    | none => decide
    | some m =>
      have hm : m ≠ "_default" := fun hh => hk (by rw [hh])
      rw [snr_resolver_default hm]
      rfl

/-- C6, witness: the amended resolver claim at the concrete keys
`some "QAM64"` (empty table) and `some "4096QAM"` (shipped table). -/
theorem c6_witness :
    _get_ds_power_thresholds emptyThresholds (some "QAM64") =
      .ok { good_min := -4, good_max := 13, crit_min := -8, crit_max := 20 } ∧
    (_get_ds_power_thresholds defaultThresholds (some "4096QAM")).isOk = true :=
  ⟨c6_resolver_fallback_amended.1 (some "QAM64"),
   (c6_resolver_fallback_amended.2.2.2.2 (some "4096QAM") (by decide)).1⟩

/-- C7: downstream records are the 3.0 list followed by the 3.1 list,
stably sorted by channel_id ascending — the output is a permutation of
the concatenation, pairwise ordered by the sort-key order, and any
key-ordered pair of the concatenation (in particular a 3.0 record and a
3.1 record sharing an id) keeps its relative order; upstream records
are likewise sorted; concretely, downstream ids [3,1,2] across mixed
versions come back [1,2,3], and a shared id keeps 3.0 before 3.1. -/
theorem c7_sorted_channels :
    (∀ (th : Thresholds) (inp : AnalyzeInput) (dsc : List DsRec),
      dsRecords th inp = .ok dsc →
        ∃ l30 l31, mapE (buildDs30 th) inp.ds30 = .ok l30 ∧
          mapE (buildDs31 th) inp.ds31 = .ok l31 ∧
          dsc.Perm (l30 ++ l31) ∧
          dsc.Pairwise (fun a b => keyLe a.channel_id b.channel_id = true) ∧
          (∀ a b, [a, b].Sublist (l30 ++ l31) →
            keyLe a.channel_id b.channel_id = true → [a, b].Sublist dsc)) ∧
    (∀ (th : Thresholds) (inp : AnalyzeInput) (usc : List UsRec),
      usRecords th inp = .ok usc →
        usc.Pairwise (fun a b => keyLe a.channel_id b.channel_id = true)) ∧
    ((analyze defaultThresholds c7Input).map
        (fun r => r.ds_channels.map (fun c => (c.channel_id, c.docsis_version))) =
      .ok [(.vInt 1, "3.0"), (.vInt 2, "3.1"), (.vInt 3, "3.0")]) ∧
    ((analyze defaultThresholds c7TieInput).map
        (fun r => r.ds_channels.map (fun c => (c.channel_id, c.docsis_version))) =
      .ok [(.vInt 1, "3.0"), (.vInt 1, "3.1")]) := by
  refine ⟨?_, ?_, by with_unfolding_all decide, by with_unfolding_all decide⟩
  · intro th inp dsc h
    obtain ⟨l30, l31, h30, h31, hs⟩ := dsRecords_ok_iff.mp h
    exact ⟨l30, l31, h30, h31, sortByKey_ok_perm hs, sortByKey_ok_pairwise hs,
      fun a b hsub hab => sortByKey_ok_stable hs hab hsub⟩
  · intro th inp usc h
    obtain ⟨l30, l31, h30, h31, hs⟩ := usRecords_ok_iff.mp h
    exact sortByKey_ok_pairwise hs

/-- C7, witness: the sortedness part applied to the concrete tie input,
whose downstream result is the 3.0 record before the 3.1 record. -/
theorem c7_witness :
    ([c7Rec, c7Rec31] : List DsRec).Pairwise
      (fun a b => keyLe a.channel_id b.channel_id = true) := by
  obtain ⟨l30, l31, -, -, -, hpair, -⟩ :=
    c7_sorted_channels.1 defaultThresholds c7TieInput [c7Rec, c7Rec31]
      (by with_unfolding_all decide)
  exact hpair

/-- C8: an if/elif chain produces the power issue, so no channel detail
ever contains both "power critical" and "power warning"; likewise the
global issue derivation never emits both ds_power_critical and
ds_power_warn, nor both us_power_critical and us_power_warn. -/
theorem c8_power_verdict_exclusive :
    (∀ (th : Thresholds) (ch : Chan) (ver : String) (hd : String × String),
      _assess_ds_channel th ch ver = .ok hd →
        ¬(strContains hd.2 "power critical" = true ∧
          strContains hd.2 "power warning" = true)) ∧
    (∀ (th : Thresholds) (ch : Chan) (ver : String) (hd : String × String),
      _assess_us_channel th ch ver = .ok hd →
        ¬(strContains hd.2 "power critical" = true ∧
          strContains hd.2 "power warning" = true)) ∧
    (∀ (th : Thresholds) (inp : AnalyzeInput) (r : AnalyzeResult), analyze th inp = .ok r →
      ¬("ds_power_critical" ∈ r.summary.health_issues ∧
        "ds_power_warn" ∈ r.summary.health_issues) ∧
      ¬("us_power_critical" ∈ r.summary.health_issues ∧
        "us_power_warn" ∈ r.summary.health_issues)) := by
  refine ⟨?_, ?_, ?_⟩
  · intro th ch ver hd h
    obtain ⟨pi, si, hpi, hsi, rfl⟩ := assess_ds_ok_inv h
    rcases hpi with rfl | rfl | rfl <;> rcases hsi with rfl | rfl | rfl <;> decide
  · intro th ch ver hd h
    obtain ⟨pi, hpi, rfl⟩ := assess_us_ok_inv h
    rcases hpi with rfl | rfl | rfl <;> decide
  · intro th inp r h
    obtain ⟨dsc, usc, tc, tu, -, -, -, -, rfl⟩ := analyze_ok_iff.mp h
    rw [assembleResult_health_issues]
    constructor <;> (rw [globalIssues]; split_ifs <;> decide)

/-- C8, witness: the per-channel part applied to a concrete healthy
channel (empty detail string). -/
theorem c8_witness :
    ¬(strContains "" "power critical" = true ∧ strContains "" "power warning" = true) :=
  c8_power_verdict_exclusive.1 defaultThresholds (mkDs30 1 2 (-35)) "3.0" ("good", "")
    (by with_unfolding_all decide)

/-- C10: presence of the SNR proxy is Python truthiness — an absent key,
None, empty string or numeric zero all skip SNR classification, leave
the record snr field None, and exclude the channel from the
ds_snr_min/ds_snr_avg statistics (a genuine 0.0 MSE reading among a
channel with MSE -35 leaves min = avg = 35). -/
theorem c10_falsy_snr_skipped :
    (pyTruthy .vNone = false ∧ pyTruthy (.vStr "") = false ∧ pyTruthy (.vInt 0) = false ∧
      pyTruthy (.vFloat 0) = false ∧ pyGet [] "mse" = .vNone) ∧
    (∀ (th : Thresholds) (ch : Chan), pyTruthy (pyGet ch "mse") = false →
      dsSnrVal ch "3.0" = none ∧
      (∀ r, buildDs30 th ch = .ok r → r.snr = none) ∧
      (∀ hd, _assess_ds_channel th ch "3.0" = .ok hd → strContains hd.2 "snr" = false)) ∧
    (∀ (th : Thresholds) (ch : Chan), pyTruthy (pyGet ch "mer") = false →
      dsSnrVal ch "3.1" = none ∧
      (∀ r, buildDs31 th ch = .ok r → r.snr = none)) ∧
    ((analyze defaultThresholds c10Input).map
        (fun r => (r.ds_channels.map (fun c => c.snr), r.summary.ds_snr_min,
          r.summary.ds_snr_avg)) = .ok ([none, some 35], 35, 35)) := by
  refine ⟨by decide, ?_, ?_, by with_unfolding_all decide⟩
  · intro th ch h
    have hnone : dsSnrVal ch "3.0" = none := by simp [dsSnrVal, h]
    refine ⟨hnone, ?_, ?_⟩
    · intro r hb
      simp only [buildDs30] at hb
      obtain ⟨hd, hhd, hb⟩ := exBind_ok.mp hb
      rw [exPure_ok] at hb
      subst hb
      simp [h]
    · intro hd hh
      simp only [_assess_ds_channel] at hh
      obtain ⟨m, hm, hh⟩ := exBind_ok.mp hh
      obtain ⟨pt, hpt, hh⟩ := exBind_ok.mp hh
      rw [hnone] at hh
      obtain ⟨issues, hiss, hh⟩ := exBind_ok.mp hh
      rw [exPure_ok] at hiss hh
      subst hiss
      subst hh
      rcases powerIssues_cases pt (_parse_float (pyGet ch "powerLevel")) with he | he | he <;>
        rw [he] <;> decide
  · intro th ch h
    have hnone : dsSnrVal ch "3.1" = none := by simp [dsSnrVal, h]
    refine ⟨hnone, ?_⟩
    intro r hb
    simp only [buildDs31] at hb
    obtain ⟨hd, hhd, hb⟩ := exBind_ok.mp hb
    rw [exPure_ok] at hb
    subst hb
    simp [h]

/-- C10, witness: the DOCSIS 3.0 part applied to the empty channel dict,
whose mse lookup is None. -/
theorem c10_witness :
    dsSnrVal ([] : Chan) "3.0" = none :=
  (c10_falsy_snr_skipped.2.1 defaultThresholds [] (by decide)).1
